import Mathlib

/-!
Verification of the CheXpert_Full dataset pipeline
(`src/datasets/chest_xray/chexpert_full.py`).

The development shallowly embeds the pieces of the class the claims are
about:

* the label dictionary `CHEXPERT_LABELS` and the selection vector
  `CHEXPERT_LABELS_IDX`;
* `build_index` (CSV parsing: `np.loadtxt` for column 0,
  `np.genfromtxt` with missing-value imputation for columns 5..18,
  followed by `np.maximum(labels, 0)`);
* `find_data` (layout resolution with one-time archive extraction);
* `__len__` and `__getitem__` (numpy integer indexing, the
  resize/pad geometry, and label selection).

Conventions of the embedding:

* A CSV data row is a path plus the list of its parsed cells; a cell is
  `none` when the field is empty or fails to parse as a number
  (np.genfromtxt missing value), `some q` when it parses to the rational q.
  Machine floats are modelled as rationals; every value the pipeline
  manipulates here (labels in {-1, 0, 1} and their clamps) is exact in
  both representations.
* Python `//` on ints is floor division and `%` (with positive divisor)
  is the nonnegative remainder, so they are embedded as `Int.fdiv` and
  `Int.emod`.
* Image pixel data is irrelevant to every claim; an image is represented
  by its tensor shape.  The composite `Image.open(..).convert("L")`
  followed by `transforms.Resize(223, max_size=224)` / `ToTensor` /
  `Normalize` is abstracted as a function `resized : String → ℤ × ℤ`
  giving the spatial shape (h, w) of the 1-channel tensor fed to the
  padding step; `resizeOK` states the torchvision postcondition of
  `Resize(223, max_size=224)`.
* numpy's default `ndmin=0` squeeze is modelled where it is observable:
  `np.loadtxt(..., usecols=0)` on a CSV with exactly one data row yields
  a 0-dimensional array, so `self.fnames.shape[0]` (`__len__`) raises
  IndexError and any integer indexing of `fnames` raises as well
  (`loadtxt_shape`, `len_dataset`, and the single-row guard in `getitem`).
* Fallible operations return `Option`/`Except`; `none`/`.error` stands
  for the corresponding Python exception.
-/

namespace CheXpertFull

/-- A parsed CSV cell: `none` = empty/unparseable (np.genfromtxt missing
value), `some q` = the numeric value. -/
abbrev Cell := Option ℚ

/-- One data row of a split CSV: column 0 (the relative image path) and
the full list of parsed cells, `cells.getD c none` being column `c`. -/
structure CsvRow where
  path : String
  cells : List Cell
deriving DecidableEq

/-- Default row used for positional lookups that are known in-bounds. -/
def dRow : CsvRow := ⟨"", []⟩

/-- The module-level CHEXPERT_LABELS dictionary (name → raw column
position inside the 14-wide label block). -/
def CHEXPERT_LABELS : List (String × ℕ) :=
  [("No Finding", 0), ("Enlarged Cardiomediastinum", 1), ("Cardiomegaly", 2),
   ("Lung Opacity", 3), ("Lung Lesion", 4), ("Edema", 5),
   ("Consolidation", 6), ("Pneumonia", 7), ("Atelectasis", 8),
   ("Pneumothorax", 9), ("Pleural Effusion", 10), ("Pleural Other", 11),
   ("Fracture", 12), ("Support Devices", 13)]

/-- Dictionary lookup `CHEXPERT_LABELS[name]` (every name used below is
present, so the default is never reached). -/
def labelIdx (nm : String) : ℕ := (CHEXPERT_LABELS.lookup nm).getD 0

def LABELS_COL : ℕ := 5

/-- `CheXpert_Full.CHEXPERT_LABELS_IDX`, built by dictionary lookup
exactly as in the source (note the two lookups of "Atelectasis"). -/
def CHEXPERT_LABELS_IDX : List ℕ :=
  [labelIdx "Atelectasis", labelIdx "Enlarged Cardiomediastinum", labelIdx "Cardiomegaly",
   labelIdx "Lung Opacity", labelIdx "Lung Lesion", labelIdx "Edema",
   labelIdx "Consolidation", labelIdx "Pneumonia", labelIdx "Atelectasis",
   labelIdx "Pneumothorax", labelIdx "Pleural Effusion", labelIdx "Pleural Other",
   labelIdx "Fracture", labelIdx "Support Devices"]

def NUM_CLASSES : ℕ := 14

def INPUT_SIZE : ℕ × ℕ := (224, 224)

/-- `usecols = range(LABELS_COL, LABELS_COL + len(CHEXPERT_LABELS))`,
the 14 label columns 5..18. -/
def usecols : List ℕ := (List.range (LABELS_COL + CHEXPERT_LABELS.length)).drop LABELS_COL

/-- One cell as read by `np.genfromtxt(..., missing_values='',
filling_values=0)`: a missing/unparseable field is imputed to 0. -/
def cellValue (r : CsvRow) (c : ℕ) : ℚ := (r.cells.getD c none).getD 0

/-- The 14-wide raw label row of one CSV record after genfromtxt
imputation. -/
def genfromtxtRow (r : CsvRow) : List ℚ := usecols.map (cellValue r)

/-- The stored label row: `np.maximum(labels, 0)` applied after
imputation (the source applies the maximum to the whole matrix at once,
which acts row-wise and hence cell-wise). -/
def storedRow (r : CsvRow) : List ℚ := (genfromtxtRow r).map (fun x => max x 0)

/-- `self.labels` after `build_index`. -/
def build_labels (rows : List CsvRow) : List (List ℚ) := rows.map storedRow

/-- `self.fnames` content after `build_index` (`np.loadtxt(..., usecols=0)`). -/
def build_fnames (rows : List CsvRow) : List String := rows.map CsvRow.path

/-- The in-memory index `(self.fnames, self.labels)`. -/
structure Index where
  fnames : List String
  labels : List (List ℚ)
deriving DecidableEq

/-- `build_index` failure: `np.loadtxt` raising because the split CSV is
absent.  (A paths/labels row-count mismatch has no error of its own in
the source because both arrays are parsed from the same data rows of the
same file; the model reflects this: no other failure mode exists.) -/
inductive ManifestErr
  | csvMissing
deriving DecidableEq

/-- `build_index`, over the parsed content of `<split>.csv`: `none`
means the file is absent. -/
def build_index (csv : Option (List CsvRow)) : Except ManifestErr Index :=
  match csv with
  | none => Except.error ManifestErr.csvMissing
  | some rows => Except.ok ⟨build_fnames rows, build_labels rows⟩

/-!  numpy array shape semantics used by `__len__`.  -/

/-- Shape of `np.loadtxt(index_file, dtype=str, delimiter=',',
skiprows=1, usecols=0)`.  With the default `ndmin=0` every
mono-dimensional axis is squeezed, so a file with exactly one data row
(one row × one used column) yields a 0-d array of shape `()`. -/
def loadtxt_shape (nrows : ℕ) : List ℕ := if nrows = 1 then [] else [nrows]

/-- `__len__` = `self.fnames.shape[0]`; on a 0-d array the shape tuple
is empty and the access raises IndexError (`none`). -/
def len_dataset (nrows : ℕ) : Option ℕ := (loadtxt_shape nrows).get? 0

/-!  Layout resolver (`find_data`).  -/

/-- The two candidate layouts `components = [root/CheXpert-v1.0,
root/CheXpert-v1.0.zip]`. -/
inductive DataPath
  | extractedDir
  | archive
deriving DecidableEq

/-- Filesystem abstraction: which of the two candidate paths exist. -/
structure FS where
  dir : Bool
  zip : Bool
deriving DecidableEq

def pathExists (fs : FS) : DataPath → Bool
  | DataPath.extractedDir => fs.dir
  | DataPath.archive => fs.zip

def components : List DataPath := [DataPath.extractedDir, DataPath.archive]

/-- `any_exist(files)` from the source. -/
def any_exist (fs : FS) (files : List DataPath) : Bool := files.any (pathExists fs)

inductive FindErr
  | dataNotFound
  | notFoundAfterSearch
deriving DecidableEq

/-- `find_data`.  `extract` is the effect of
`extract_archive(components[1])` on the filesystem (it is only invoked
when the directory is absent and the archive present).  The returned
Bool records whether extraction ran.  The final `for i in (0, 1)` loop
re-checks existence on the post-extraction filesystem. -/
def find_data (fs : FS) (extract : FS → FS) : Except FindErr (DataPath × Bool) :=
  if !(any_exist fs components) then Except.error FindErr.dataNotFound
  else
    let doExtract := !(any_exist fs (components.take 1)) && pathExists fs DataPath.archive
    let fs2 := if doExtract then extract fs else fs
    if pathExists fs2 DataPath.extractedDir then Except.ok (DataPath.extractedDir, doExtract)
    else if pathExists fs2 DataPath.archive then Except.ok (DataPath.archive, doExtract)
    else Except.error FindErr.notFoundAfterSearch

/-!  Sample materialization (`__getitem__`).  -/

/-- numpy integer indexing of a 1-d array: nonnegative positions index
from the front, positions in `[-len, 0)` from the back, everything else
raises IndexError (`none`). -/
def npGet {α : Type} (xs : List α) (i : ℤ) : Option α :=
  if 0 ≤ i then xs.get? i.toNat
  else if 0 ≤ (xs.length : ℤ) + i then xs.get? ((xs.length : ℤ) + i).toNat
  else none

/-- `torch.tensor(x).long()`: float-to-int64 conversion truncates toward
zero. -/
def longCast (q : ℚ) : ℤ := if 0 ≤ q then q.floor else -((-q).floor)

/-- `self.labels[index][self.CHEXPERT_LABELS_IDX]` followed by
`.long()`: fancy-indexing of the stored 14-wide row by the selection
vector (every selector is < 14, so the `getD` default is never reached
on rows produced by `build_labels`). -/
def labelSelect (row : List ℚ) : List ℤ :=
  CHEXPERT_LABELS_IDX.map (fun j => longCast (row.getD j 0))

/-- The padding parameters `(left, top, right, bottom)` handed to
`transforms.Pad` for a resized image of spatial shape (h, w). -/
def padParams (h w : ℤ) : ℤ × ℤ × ℤ × ℤ :=
  if h > w then
    let dim_gap := h - w
    (Int.fdiv dim_gap 2, 0, Int.fdiv (dim_gap + Int.emod dim_gap 2) 2, 0)
  else if h = w then
    let dim_gap := (INPUT_SIZE.1 : ℤ) - h
    (dim_gap, dim_gap, 0, 0)
  else
    let dim_gap := w - h
    (0, Int.fdiv dim_gap 2, 0, Int.fdiv (dim_gap + Int.emod dim_gap 2) 2)

/-- Spatial shape after `transforms.Pad` with parameters
`padParams h w = (left, top, right, bottom)`: height grows by top +
bottom, width by left + right. -/
def paddedSize (h w : ℤ) : ℤ × ℤ :=
  (h + (padParams h w).2.1 + (padParams h w).2.2.2,
   w + (padParams h w).1 + (padParams h w).2.2.1)

/-- Postcondition of `transforms.Resize(223, max_size=224)` on the
spatial shape: the shorter side becomes 223 when that keeps the longer
side within 224, otherwise the longer side becomes 224 and the shorter
one lands at or below 223. -/
def resizeOK (h w : ℤ) : Prop :=
  (min h w = 223 ∧ max h w ≤ 224) ∨ (max h w = 224 ∧ min h w ≤ 223)

instance (h w : ℤ) : Decidable (resizeOK h w) :=
  inferInstanceAs (Decidable ((min h w = 223 ∧ max h w ≤ 224) ∨ (max h w = 224 ∧ min h w ≤ 223)))

/-- The materialized sample `(index, img.float(), label)`, with the
image represented by its tensor shape (channels, height, width). -/
structure Sample where
  pos : ℤ
  imgShape : ℤ × ℤ × ℤ
  label : List ℤ
deriving DecidableEq

/-- `__getitem__`.  `fnames` and `labels` are the index arrays,
`resized` gives the post-resize spatial shape of the grayscale tensor of
each image file, `index` the requested position.  On a single-row
manifest the squeezed 0-d `fnames` array makes any integer indexing
raise, hence the guard; otherwise `self.fnames[index]` and
`self.labels[index]` follow numpy indexing. -/
def getitem (fnames : List String) (labels : List (List ℚ))
    (resized : String → ℤ × ℤ) (index : ℤ) : Option Sample :=
  if fnames.length = 1 then none
  else
    match npGet fnames index with
    | none => none
    | some fname =>
      let hw := resized fname
      let sz := paddedSize hw.1 hw.2
      match npGet labels index with
      | none => none
      | some row => some ⟨index, (1, sz.1, sz.2), labelSelect row⟩

/-!  Spec-side definitions (for refinement statements).  -/

/-- Modelled from the spec: the canonical class ordering of §3/§6,
index → class name, including the deliberate duplicate "Atelectasis" at
positions 0 and 8. -/
def canonicalNames : List String :=
  ["Atelectasis", "Enlarged Cardiomediastinum", "Cardiomegaly",
   "Lung Opacity", "Lung Lesion", "Edema",
   "Consolidation", "Pneumonia", "Atelectasis",
   "Pneumothorax", "Pleural Effusion", "Pleural Other",
   "Fracture", "Support Devices"]

/-- Modelled from the spec: label selection as §4.3 Step 5 words it —
entry k of the output is the stored value of the class named
`canonicalNames[k]`, cast to an integer. -/
def labelSelectSpec (row : List ℚ) : List ℤ :=
  canonicalNames.map (fun nm => longCast (row.getD (labelIdx nm) 0))

/-!  Arithmetic of the padding shares.  -/

/-- Python floor division by 2 agrees with Euclidean division by 2. -/
lemma fdiv_two (a : ℤ) : Int.fdiv a 2 = a / 2 :=
  Int.fdiv_eq_ediv a (by decide)

lemma emod_two (a : ℤ) : Int.emod a 2 = a % 2 := rfl

/-- The second share `(g + g % 2) // 2` computed by the source equals the
complement `g - g // 2`, it dominates the first share, and exceeds it by
at most one when the gap is nonnegative. -/
lemma ceilShare (g : ℤ) (_hg : 0 ≤ g) :
    Int.fdiv (g + Int.emod g 2) 2 = g - Int.fdiv g 2 ∧
    Int.fdiv g 2 ≤ g - Int.fdiv g 2 ∧
    (g - Int.fdiv g 2) - Int.fdiv g 2 ≤ 1 := by
  simp only [fdiv_two, emod_two]
  omega

lemma padParams_lt (h w : ℤ) (hlt : h < w) :
    padParams h w = (0, Int.fdiv (w - h) 2, 0, Int.fdiv ((w - h) + Int.emod (w - h) 2) 2) := by
  unfold padParams
  rw [if_neg (by omega), if_neg (by omega)]

lemma padParams_gt (h w : ℤ) (hgt : w < h) :
    padParams h w = (Int.fdiv (h - w) 2, 0, Int.fdiv ((h - w) + Int.emod (h - w) 2) 2, 0) := by
  unfold padParams
  rw [if_pos (by omega)]

lemma padParams_eq (h : ℤ) :
    padParams h h = ((INPUT_SIZE.1 : ℤ) - h, (INPUT_SIZE.1 : ℤ) - h, 0, 0) := by
  unfold padParams
  rw [if_neg (by omega), if_pos rfl]

/-- Under the resize postcondition the padding always lands exactly on
the 224 × 224 canvas. -/
lemma paddedSize_eq_target (h w : ℤ) (hr : resizeOK h w) : paddedSize h w = (224, 224) := by
  rcases lt_trichotomy h w with hlt | heq | hgt
  · have hc := ceilShare (w - h) (by omega)
    rw [paddedSize, padParams_lt h w hlt]
    simp only [Prod.mk.injEq]
    rcases hr with ⟨h1, h2⟩ | ⟨h1, h2⟩ <;>
      simp only [fdiv_two, emod_two] at hc ⊢ <;> omega
  · subst heq
    rw [paddedSize, padParams_eq h]
    simp only [Prod.mk.injEq, INPUT_SIZE]
    rcases hr with ⟨h1, h2⟩ | ⟨h1, h2⟩ <;> omega
  · have hc := ceilShare (h - w) (by omega)
    rw [paddedSize, padParams_gt h w hgt]
    simp only [Prod.mk.injEq]
    rcases hr with ⟨h1, h2⟩ | ⟨h1, h2⟩ <;>
      simp only [fdiv_two, emod_two] at hc ⊢ <;> omega

/-- C2: in the equal-sides branch of the padding step the whole gap
`224 - h` is added to both the top and the left, nothing to the bottom
or right, and the result is a 224 × 224 canvas; at h = w = 223 the
top/left padding is 1 and the bottom/right 0 (see the witness). -/
theorem c2_equal_pad (h : ℤ) (_hne : h ≠ 224) :
    padParams h h = (224 - h, 224 - h, 0, 0) ∧ paddedSize h h = (224, 224) := by
  have hp := padParams_eq h
  constructor
  · rw [hp]; norm_num [INPUT_SIZE]
  · rw [paddedSize, hp]
    simp only [Prod.mk.injEq, INPUT_SIZE]
    omega

theorem c2_equal_pad_witness :
    (223 : ℤ) ≠ 224 ∧ padParams 223 223 = (1, 1, 0, 0) ∧ paddedSize 223 223 = (224, 224) := by
  refine ⟨by decide, ?_, (c2_equal_pad 223 (by decide)).2⟩
  have h := (c2_equal_pad 223 (by decide)).1
  rw [h]; decide

/-- C3: in the unequal branches the gap is split as `gap // 2` against
`gap - gap // 2` (left/right when h > w, top/bottom when h < w) with no
padding on the other axis; the shares sum to the gap and the larger
share is at most one more than the smaller. -/
theorem c3_split_pad (h w : ℤ) :
    (h > w →
      padParams h w = (Int.fdiv (h - w) 2, 0, (h - w) - Int.fdiv (h - w) 2, 0) ∧
      Int.fdiv (h - w) 2 + ((h - w) - Int.fdiv (h - w) 2) = h - w ∧
      Int.fdiv (h - w) 2 ≤ (h - w) - Int.fdiv (h - w) 2 ∧
      ((h - w) - Int.fdiv (h - w) 2) - Int.fdiv (h - w) 2 ≤ 1) ∧
    (h < w →
      padParams h w = (0, Int.fdiv (w - h) 2, 0, (w - h) - Int.fdiv (w - h) 2) ∧
      Int.fdiv (w - h) 2 + ((w - h) - Int.fdiv (w - h) 2) = w - h ∧
      Int.fdiv (w - h) 2 ≤ (w - h) - Int.fdiv (w - h) 2 ∧
      ((w - h) - Int.fdiv (w - h) 2) - Int.fdiv (w - h) 2 ≤ 1) := by
  constructor
  · intro hgt
    have hc := ceilShare (h - w) (by omega)
    refine ⟨?_, by omega, hc.2.1, hc.2.2⟩
    rw [padParams_gt h w hgt, hc.1]
  · intro hlt
    have hc := ceilShare (w - h) (by omega)
    refine ⟨?_, by omega, hc.2.1, hc.2.2⟩
    rw [padParams_lt h w hlt, hc.1]

theorem c3_split_pad_witness :
    (201 : ℤ) > 150 ∧ padParams 201 150 = (25, 0, 26, 0) := by
  refine ⟨by decide, ?_⟩
  have h := ((c3_split_pad 201 150).1 (by decide)).1
  rw [h]; decide

/-!  Concrete manifest rows used by witnesses.  Cells follow the CSV
layout: columns 0..4 are the path/metadata columns (non-numeric, hence
`none`), columns 5..18 the label block with values in {-1, 0, 1,
missing}. -/

def exRowA : CsvRow :=
  ⟨"CheXpert-v1.0/train/patient1/study1/view1_frontal.jpg",
   [none, none, none, none, none, some (-1), none, some 1, some 0]⟩

def exRowB : CsvRow :=
  ⟨"CheXpert-v1.0/train/patient2/study1/view1_frontal.jpg",
   [none, none, none, none, none, some 1, some 0, none, some (-1), some 1,
    some 0, none, some 1, some 0, some 1, none, some 0, some 1, none]⟩

def exRows : List CsvRow := [exRowA, exRowB]

def exResized : String → ℤ × ℤ := fun _ => (224, 200)

/-!  List access helpers.  -/

lemma get?_eq_getD_of_lt {α : Type} (xs : List α) (p : ℕ) (d : α) (hp : p < xs.length) :
    xs.get? p = some (xs.getD p d) := by
  cases h : xs.get? p with
  | none => rw [List.get?_eq_none] at h; omega
  | some a => rw [List.getD_eq_getD_get?, h]; rfl

lemma npGet_natCast {α : Type} (xs : List α) (p : ℕ) : npGet xs (p : ℤ) = xs.get? p := by
  unfold npGet
  rw [if_pos (Int.natCast_nonneg p)]
  simp

/-- Evaluation of `__getitem__` at a valid nonnegative position on a
manifest the loaders do not squeeze. -/
lemma getitem_valid_eq (rows : List CsvRow) (resized : String → ℤ × ℤ) (p : ℕ)
    (hp : p < rows.length) (hn : rows.length ≠ 1) :
    getitem (build_fnames rows) (build_labels rows) resized (p : ℤ) =
      some ⟨(p : ℤ),
            (1, (paddedSize (resized (rows.getD p dRow).path).1
                   (resized (rows.getD p dRow).path).2).1,
                (paddedSize (resized (rows.getD p dRow).path).1
                   (resized (rows.getD p dRow).path).2).2),
            labelSelect (storedRow (rows.getD p dRow))⟩ := by
  have hf : (build_fnames rows).length = rows.length := List.length_map _ _
  have h1 : npGet (build_fnames rows) (p : ℤ) = some (rows.getD p dRow).path := by
    rw [npGet_natCast]
    unfold build_fnames
    rw [List.get?_map, get?_eq_getD_of_lt rows p dRow hp]
    rfl
  have h2 : npGet (build_labels rows) (p : ℤ) = some (storedRow (rows.getD p dRow)) := by
    rw [npGet_natCast]
    unfold build_labels
    rw [List.get?_map, get?_eq_getD_of_lt rows p dRow hp]
    rfl
  unfold getitem
  rw [if_neg (by omega : ¬ (build_fnames rows).length = 1), h1, h2]

/-- C1: every stored label row is the raw row with missing cells imputed
to 0 first and negatives then clamped to 0 — elementwise, entry i of the
stored row is `max (impute (raw cell at column 5 + i)) 0`. -/
theorem c1_impute_clamp (r : CsvRow) (i : ℕ) (hi : i < NUM_CLASSES) :
    (storedRow r).get? i = some (max ((r.cells.getD (LABELS_COL + i) none).getD 0) 0) := by
  have hu : ∀ j, j < 14 → usecols.get? j = some (LABELS_COL + j) := by decide
  unfold storedRow genfromtxtRow
  rw [List.get?_map, List.get?_map, hu i (by simpa [NUM_CLASSES] using hi)]
  rfl

theorem c1_impute_clamp_witness :
    ((0 : ℕ) < NUM_CLASSES ∧
      (storedRow exRowA).get? 0 =
        some (max ((exRowA.cells.getD (LABELS_COL + 0) none).getD 0) 0)) ∧
    (storedRow exRowA).take 4 = [0, 0, 1, 0] :=
  ⟨⟨by decide, c1_impute_clamp exRowA 0 (by decide)⟩, by decide⟩

/-- C6: index construction fails when the split CSV is absent, and on
success the paths sequence and the label matrix always have the same row
count (both are parsed from the same data rows of the same file, so a
mismatch cannot arise on success — making the claimed mismatch failure
vacuously true). -/
theorem c6_manifest_consistency :
    build_index none = Except.error ManifestErr.csvMissing ∧
    ∀ rows idx, build_index (some rows) = Except.ok idx →
      idx.fnames.length = idx.labels.length := by
  refine ⟨rfl, ?_⟩
  intro rows idx h
  have he : idx = ⟨build_fnames rows, build_labels rows⟩ := by
    simpa [build_index] using h.symm
  subst he
  simp [build_fnames, build_labels]

theorem c6_manifest_consistency_witness :
    build_index (some exRows) = Except.ok ⟨build_fnames exRows, build_labels exRows⟩ ∧
    (Index.mk (build_fnames exRows) (build_labels exRows)).fnames.length =
      (Index.mk (build_fnames exRows) (build_labels exRows)).labels.length :=
  ⟨rfl, c6_manifest_consistency.2 exRows ⟨build_fnames exRows, build_labels exRows⟩ rfl⟩

/-- C8 (failing input): on a manifest with exactly one data row,
`np.loadtxt(..., usecols=0)` squeezes the result to a 0-d array, so
`__len__` (`fnames.shape[0]`) raises IndexError instead of returning 1;
for any other row count the length is the row count, and the path
sequence preserves CSV row order. -/
theorem c8_single_row_breaks_len :
    len_dataset 1 = none ∧ len_dataset 0 = some 0 ∧ len_dataset 2 = some 2 ∧
    build_fnames exRows = [exRowA.path, exRowB.path] := by
  refine ⟨rfl, rfl, rfl, rfl⟩

/-!  Label selection claims.  -/

/-- The source's positional selection vector implements exactly the
spec's by-name canonical ordering. -/
lemma labelSelect_eq_spec (row : List ℚ) : labelSelect row = labelSelectSpec row := rfl

lemma getD_mem_of_lt {α : Type} (xs : List α) (n : ℕ) (d : α) (h : n < xs.length) :
    xs.getD n d ∈ xs :=
  List.get?_mem (get?_eq_getD_of_lt xs n d h)

/-- C4: at every valid position the returned label tensor is the stored
14-wide row reindexed into the canonical class ordering (by-name, with
"Atelectasis" selected at output slots 0 and 8) and cast to integers.
Positions of single-row manifests are excluded: there the squeezed
arrays make every access raise before a label is produced. -/
theorem c4_label_canonical (rows : List CsvRow) (resized : String → ℤ × ℤ) (p : ℕ)
    (hp : p < rows.length) (hn : rows.length ≠ 1) :
    ∃ s, getitem (build_fnames rows) (build_labels rows) resized (p : ℤ) = some s ∧
      s.label = labelSelectSpec (storedRow (rows.getD p dRow)) :=
  ⟨_, getitem_valid_eq rows resized p hp hn, labelSelect_eq_spec _⟩

theorem c4_label_canonical_witness :
    ∃ s, getitem (build_fnames exRows) (build_labels exRows) exResized ((0 : ℕ) : ℤ) = some s ∧
      s.label = labelSelectSpec (storedRow (exRows.getD 0 dRow)) :=
  c4_label_canonical exRows exResized 0 (by decide) (by decide)

/-- C10: the label tensor always repeats its Atelectasis value at slots
0 and 8 (both selectors read raw column 8), and the raw "No Finding"
column (raw index 0) never influences the output: rewriting it changes
nothing. -/
theorem c10_duplicate_atelectasis (rows : List CsvRow) (resized : String → ℤ × ℤ) (p : ℕ)
    (hp : p < rows.length) (hn : rows.length ≠ 1) :
    (∃ s, getitem (build_fnames rows) (build_labels rows) resized (p : ℤ) = some s ∧
      s.label.get? 0 = s.label.get? 8) ∧
    ∀ (row : List ℚ) (v : ℚ), labelSelect (row.set 0 v) = labelSelect row := by
  constructor
  · refine ⟨_, getitem_valid_eq rows resized p hp hn, ?_⟩
    show (labelSelect _).get? 0 = (labelSelect _).get? 8
    unfold labelSelect
    rw [List.get?_map, List.get?_map,
      (by decide : CHEXPERT_LABELS_IDX.get? 0 = some 8),
      (by decide : CHEXPERT_LABELS_IDX.get? 8 = some 8)]
  · intro row v
    unfold labelSelect
    refine List.map_congr_left ?_
    intro j hj
    have hjne : (0 : ℕ) ≠ j := by
      have hall : ∀ k ∈ CHEXPERT_LABELS_IDX, k ≠ 0 := by decide
      exact fun h => hall j hj h.symm
    rw [List.getD_eq_getD_get?, List.getD_eq_getD_get?, List.get?_set_ne _ _ hjne]

theorem c10_duplicate_atelectasis_witness :
    ∃ s, getitem (build_fnames exRows) (build_labels exRows) exResized ((1 : ℕ) : ℤ) = some s ∧
      s.label.get? 0 = s.label.get? 8 :=
  (c10_duplicate_atelectasis exRows exResized 1 (by decide) (by decide)).1

/-!  Shape and range of the materialized sample.  -/

lemma storedRow_entries (r : CsvRow)
    (hdom : ∀ c ∈ r.cells, c = none ∨ c = some (-1) ∨ c = some 0 ∨ c = some 1) :
    ∀ q ∈ storedRow r, q = 0 ∨ q = 1 := by
  intro q hq
  unfold storedRow genfromtxtRow at hq
  rw [List.mem_map] at hq
  obtain ⟨x, hx, hq⟩ := hq
  rw [List.mem_map] at hx
  obtain ⟨c, _hc, hx⟩ := hx
  subst hx
  subst hq
  unfold cellValue
  by_cases hlen : c < r.cells.length
  · rcases hdom _ (getD_mem_of_lt r.cells c none hlen) with h | h | h | h <;> rw [h]
    · left; decide
    · left; decide
    · left; decide
    · right; decide
  · rw [List.getD_eq_default _ _ (le_of_not_lt hlen)]
    left; decide

lemma labelSelect_entries (row : List ℚ) (hrow : ∀ q ∈ row, q = 0 ∨ q = 1) :
    ∀ x ∈ labelSelect row, x = 0 ∨ x = 1 := by
  intro x hx
  unfold labelSelect at hx
  rw [List.mem_map] at hx
  obtain ⟨j, _hj, hx⟩ := hx
  subst hx
  have hd : row.getD j 0 = 0 ∨ row.getD j 0 = 1 := by
    by_cases hlen : j < row.length
    · exact hrow _ (getD_mem_of_lt row j 0 hlen)
    · rw [List.getD_eq_default _ _ (le_of_not_lt hlen)]; left; rfl
  rcases hd with h | h <;> rw [h]
  · left; decide
  · right; decide

/-- C5: at every valid position (of a manifest the loaders do not
squeeze) the sample's image tensor has shape [1, 224, 224] — for any
resized shape satisfying the resize postcondition — and its label
tensor has 14 entries, each 0 or 1, provided the raw cells lie in the
manifest domain {-1, 0, 1, missing}. -/
theorem c5_shape_and_range (rows : List CsvRow) (resized : String → ℤ × ℤ) (p : ℕ)
    (hp : p < rows.length) (hn : rows.length ≠ 1)
    (hres : ∀ f, resizeOK (resized f).1 (resized f).2)
    (hdom : ∀ r ∈ rows, ∀ c ∈ r.cells, c = none ∨ c = some (-1) ∨ c = some 0 ∨ c = some 1) :
    ∃ s, getitem (build_fnames rows) (build_labels rows) resized (p : ℤ) = some s ∧
      s.imgShape = (1, 224, 224) ∧ s.label.length = NUM_CLASSES ∧
      ∀ x ∈ s.label, x = 0 ∨ x = 1 := by
  refine ⟨_, getitem_valid_eq rows resized p hp hn, ?_, ?_, ?_⟩
  · show ((1 : ℤ), (paddedSize (resized (rows.getD p dRow).path).1
        (resized (rows.getD p dRow).path).2).1,
        (paddedSize (resized (rows.getD p dRow).path).1
          (resized (rows.getD p dRow).path).2).2) = (1, 224, 224)
    rw [paddedSize_eq_target _ _ (hres (rows.getD p dRow).path)]
  · show (labelSelect (storedRow (rows.getD p dRow))).length = NUM_CLASSES
    unfold labelSelect
    rw [List.length_map]
    decide
  · show ∀ x ∈ labelSelect (storedRow (rows.getD p dRow)), x = 0 ∨ x = 1
    exact labelSelect_entries _ (storedRow_entries _ (hdom _ (getD_mem_of_lt rows p dRow hp)))

theorem c5_shape_and_range_witness :
    ∃ s, getitem (build_fnames exRows) (build_labels exRows) exResized ((1 : ℕ) : ℤ) = some s ∧
      s.imgShape = (1, 224, 224) ∧ s.label.length = NUM_CLASSES ∧
      ∀ x ∈ s.label, x = 0 ∨ x = 1 :=
  c5_shape_and_range exRows exResized 1 (by decide) (by decide)
    (fun _ => (by decide : resizeOK 224 200)) (by decide)

/-!  Position bounds of `__getitem__` (claim C7).  -/

lemma get?_isSome_iff {α : Type} (xs : List α) (n : ℕ) :
    (xs.get? n).isSome = true ↔ n < xs.length := by
  cases h : xs.get? n with
  | none =>
    rw [List.get?_eq_none] at h
    simp only [Option.isSome_none, Bool.false_eq_true, false_iff]
    omega
  | some a =>
    have hlt : n < xs.length := by
      by_contra hge
      rw [List.get?_eq_none.2 (by omega)] at h
      cases h
    simp [hlt]

/-- numpy 1-d integer indexing succeeds exactly on `[-len, len)`. -/
lemma npGet_isSome {α : Type} (xs : List α) (i : ℤ) :
    (npGet xs i).isSome = true ↔ (-(xs.length : ℤ) ≤ i ∧ i < (xs.length : ℤ)) := by
  unfold npGet
  split_ifs with h1 h2
  · rw [get?_isSome_iff]; omega
  · rw [get?_isSome_iff]; omega
  · simp only [Option.isSome_none, Bool.false_eq_true, false_iff]
    omega

/-- C7 counterexample: on a concrete two-row index, `getitem` at
position -1 — outside [0, length) — succeeds instead of raising: numpy
negative indexing counts from the end (standard sequence semantics). -/
theorem c7_counterexample :
    (getitem (build_fnames exRows) (build_labels exRows) exResized (-1)).isSome = true := by
  rfl

/-- C7 amended: on an index the loaders do not squeeze, `getitem`
accepts exactly the integer positions in [-length, length) — failing
with an index error outside that interval — and `getitem(length)` in
particular fails. -/
theorem c7_index_bounds (fnames : List String) (labels : List (List ℚ))
    (resized : String → ℤ × ℤ) (hlen : labels.length = fnames.length)
    (hn : fnames.length ≠ 1) (i : ℤ) :
    ((getitem fnames labels resized i).isSome = true ↔
      (-(fnames.length : ℤ) ≤ i ∧ i < (fnames.length : ℤ))) ∧
    getitem fnames labels resized (fnames.length : ℤ) = none := by
  constructor
  · unfold getitem
    rw [if_neg hn]
    cases hF : npGet fnames i with
    | none =>
      have hFb := npGet_isSome fnames i
      rw [hF] at hFb
      simpa using hFb
    | some f =>
      have hFb := (npGet_isSome fnames i).1 (by rw [hF]; rfl)
      cases hL : npGet labels i with
      | none =>
        have hLb : (npGet labels i).isSome = true := by
          rw [npGet_isSome labels i, hlen]
          exact hFb
        rw [hL] at hLb
        cases hLb
      | some row =>
        simpa using hFb
  · unfold getitem
    rw [if_neg hn]
    have hF : npGet fnames (fnames.length : ℤ) = none := by
      cases h : npGet fnames (fnames.length : ℤ) with
      | none => rfl
      | some a =>
        have hb := (npGet_isSome fnames (fnames.length : ℤ)).1 (by rw [h]; rfl)
        omega
    rw [hF]

theorem c7_index_bounds_witness :
    (((getitem (build_fnames exRows) (build_labels exRows) exResized 2).isSome = true ↔
      (-(((build_fnames exRows).length : ℤ)) ≤ 2 ∧ 2 < ((build_fnames exRows).length : ℤ))) ∧
     getitem (build_fnames exRows) (build_labels exRows) exResized
       ((build_fnames exRows).length : ℤ) = none) :=
  c7_index_bounds (build_fnames exRows) (build_labels exRows) exResized rfl (by decide) 2

/-!  Layout resolution (claim C9).  -/

/-- C9: `find_data` fails with the "data not found" error exactly when
neither the extracted directory nor the archive exists; an existing
extracted directory is returned with no extraction; otherwise the
archive is extracted and the resolver returns the extracted directory if
it now exists, else the archive if it still exists, and fails with the
distinct post-search error when neither survives extraction. -/
theorem c9_layout_resolution (fs : FS) (extract : FS → FS) :
    (find_data fs extract = Except.error FindErr.dataNotFound ↔
      fs.dir = false ∧ fs.zip = false) ∧
    (fs.dir = true → find_data fs extract = Except.ok (DataPath.extractedDir, false)) ∧
    (fs.dir = false → fs.zip = true →
      find_data fs extract =
        if (extract fs).dir then Except.ok (DataPath.extractedDir, true)
        else if (extract fs).zip then Except.ok (DataPath.archive, true)
        else Except.error FindErr.notFoundAfterSearch) := by
  rcases fs with ⟨d, z⟩
  cases d <;> cases z
  · simp [find_data, any_exist, pathExists, components]
  · cases hd : (extract ⟨false, true⟩).dir <;> cases hz : (extract ⟨false, true⟩).zip <;>
      simp [find_data, any_exist, pathExists, components, hd, hz]
  · simp [find_data, any_exist, pathExists, components]
  · simp [find_data, any_exist, pathExists, components]

/-- A sample extraction effect: unpacking the archive creates the
extracted directory and keeps the archive. -/
def exExtract : FS → FS := fun s => ⟨true, s.zip⟩

theorem c9_layout_resolution_witness :
    find_data ⟨false, true⟩ exExtract =
      if (exExtract ⟨false, true⟩).dir then Except.ok (DataPath.extractedDir, true)
      else if (exExtract ⟨false, true⟩).zip then Except.ok (DataPath.archive, true)
      else Except.error FindErr.notFoundAfterSearch :=
  (c9_layout_resolution ⟨false, true⟩ exExtract).2.2 rfl rfl

end CheXpertFull
